import Mathlib

/-!
Verification of the SQL translation/validation/repair core of the
aiPropertySearch backend (`app/infrastructure/llm/ollama_adapter.py` and
`app/domain/use_cases/search_property.py`).

Text is modelled as `List Char`; Python string methods are embedded as
explicit functions over character lists.
-/

set_option maxRecDepth 10000

namespace AiPropertySearch

/-- Python `str.strip()` (no arguments): remove leading and trailing whitespace. -/
def stripWs (s : List Char) : List Char :=
  ((s.dropWhile Char.isWhitespace).reverse.dropWhile Char.isWhitespace).reverse

/-- Python `str.rstrip(chars)` restricted to a single character: remove all
trailing occurrences of `c`. -/
def rstripChar (c : Char) (s : List Char) : List Char :=
  (s.reverse.dropWhile (fun d => d = c)).reverse

/-- Python substring containment `pat in s` (the binary `in` operator on `str`). -/
def containsSub (s pat : List Char) : Bool :=
  if pat.isPrefixOf s then true
  else
    match s with
    | [] => false
    | _ :: t => containsSub t pat

/-- Uppercase a character list, modelling Python `str.upper()` on ASCII text. -/
def upperStr (s : List Char) : List Char := s.map Char.toUpper

/-- Lowercase a character list, modelling Python `str.lower()` on ASCII text. -/
def lowerStr (s : List Char) : List Char := s.map Char.toLower

/-- Pad a string with one space on each side, modelling the Python
f-string `f" {x} "` used by the dangerous-keyword check. -/
def padSpaces (s : List Char) : List Char := ' ' :: (s ++ [' '])

def strSELECT : List Char := "SELECT".data
def strFROM : List Char := "FROM".data
def strWHERE : List Char := "WHERE".data

/-- The dangerous-keyword list, in the source's order
(`ollama_adapter.py` line 141). -/
def dangerousKeywords : List (List Char) :=
  ["DROP".data, "DELETE".data, "UPDATE".data, "INSERT".data, "CREATE".data,
   "ALTER".data, "EXEC".data, "EXECUTE".data, "TRUNCATE".data]

/-- One dangerous-keyword test: `f" {keyword} " in f" {sql_upper} "`
(`ollama_adapter.py` line 143). -/
def keywordHit (sqlUpper kw : List Char) : Bool :=
  containsSub (padSpaces sqlUpper) (padSpaces kw)

/-- The first dangerous keyword (in list order) detected in the uppercased
template, if any (`ollama_adapter.py` lines 141-144). -/
def firstDangerous (sqlUpper : List Char) : Option (List Char) :=
  dangerousKeywords.find? (keywordHit sqlUpper)

/-- The reasons a single validation attempt can raise `ValueError`
(`ollama_adapter.py` lines 136-144): not a SELECT statement, or a dangerous
keyword was detected. -/
inductive CheckError
  | notASelect
  | dangerousKeyword (kw : List Char)
deriving DecidableEq, Repr

/-- One validation attempt: the body of the `try` block of
`validate_sql_template` (`ollama_adapter.py` lines 129-147).
`sqlalchemy.text(current_sql)` only constructs a lazy `TextClause` and cannot
fail on a string argument, so it is embedded as a no-op.  The remaining checks:
the stripped uppercased template must start with `SELECT`, and no dangerous
keyword may occur space-delimited in the space-padded uppercased template.
`none` means the attempt passed (the function would `return True`). -/
def checkSqlOnce (sql : List Char) : Option CheckError :=
  let sqlUpper := upperStr (stripWs sql)
  if strSELECT.isPrefixOf sqlUpper then
    match firstDangerous sqlUpper with
    | some kw => some (CheckError.dangerousKeyword kw)
    | none => none
  else some CheckError.notASelect

/-- JSON scalar values, modelling the results of `json.loads` on the flat
arrays the adapter expects (integers, strings without escapes, booleans,
null; floats and nesting are not exercised by the adapter's contract). -/
inductive JsonVal
  | num (n : Int)
  | str (s : List Char)
  | bool (b : Bool)
  | null
deriving DecidableEq, Repr

/-- `maxRetries` of the validation/repair loop (`ollama_adapter.py` line 124). -/
def maxRetries : Nat := 3

/-- The external repair collaborator `_fix_sql_with_llm`
(`ollama_adapter.py` lines 180-225), as an oracle: given the attempt index,
the current template, the current parameters and the failure reason, it
returns a corrected `(template, params)` pair, or `none` when the call
raises (network failure or unparseable fix response). -/
def Fixer : Type :=
  Nat → List Char → List JsonVal → CheckError → Option (List Char × List JsonVal)

deriving instance DecidableEq for Except

/-- The observable outcome of one run of `validate_sql_template`:
the returned value or raised error, the number of `_fix_sql_with_llm`
invocations, and the number of validation attempts executed. -/
structure LoopTrace where
  result : Except CheckError Bool
  fixCalls : Nat
  checkCalls : Nat
deriving DecidableEq, Repr

/-- The retry loop of `validate_sql_template` (`ollama_adapter.py`
lines 128-178), unrolled on remaining iterations (`fuel`).  Per iteration:
run the checks; on success return `True`; on failure raise if
`attempt == max_retries - 1`, otherwise call the fixer — on fixer success the
current pair is replaced, on fixer failure (its exception is swallowed) the
pair is kept — and continue.  If the loop completes without returning the
function returns `False` (line 178). -/
def validateGo (fixer : Fixer) : List Char → List JsonVal → Nat → Nat → LoopTrace
  | _, _, _, 0 => ⟨Except.ok false, 0, 0⟩
  | sql, params, attempt, fuel + 1 =>
    match checkSqlOnce sql with
    | none => ⟨Except.ok true, 0, 1⟩
    | some e =>
      if attempt = maxRetries - 1 then ⟨Except.error e, 0, 1⟩
      else
        match fixer attempt sql params e with
        | some (sql2, params2) =>
          let r := validateGo fixer sql2 params2 (attempt + 1) fuel
          ⟨r.result, r.fixCalls + 1, r.checkCalls + 1⟩
        | none =>
          let r := validateGo fixer sql params (attempt + 1) fuel
          ⟨r.result, r.fixCalls + 1, r.checkCalls + 1⟩

/-- `OllamaLLMAdapter.validate_sql_template` (`ollama_adapter.py`
lines 109-178): the loop entered at attempt 0 with `max_retries = 3`. -/
def validate_sql_template (fixer : Fixer) (sql : List Char) (params : List JsonVal) :
    LoopTrace :=
  validateGo fixer sql params 0 maxRetries

/-- A fenced code block found in the raw response, as built at
`ollama_adapter.py` lines 246-251: its (stripped) content and its match
offsets in the response text. -/
structure CodeBlock where
  content : List Char
  start : Nat
  stop : Nat
deriving DecidableEq, Repr

/-- JSON whitespace characters accepted by `json.loads` between tokens. -/
def jsonWs (c : Char) : Bool :=
  c = ' ' || c = '\t' || c = '\n' || c = '\r'

/-- Skip JSON whitespace. -/
def skipJsonWs (s : List Char) : List Char := s.dropWhile jsonWs

/-- Decimal digits to a natural number. -/
def digitsToNat (ds : List Char) : Nat :=
  ds.foldl (fun acc c => acc * 10 + (c.toNat - '0'.toNat)) 0

/-- Split a character list at the first double quote (JSON string body);
escape sequences are not modelled. -/
def splitAtQuote : List Char → Option (List Char × List Char)
  | [] => none
  | '"' :: rest => some ([], rest)
  | c :: rest => (splitAtQuote rest).map (fun p => (c :: p.1, p.2))

/-- Parse one JSON scalar (integer, string, boolean or null) from the front
of the input, returning it with the remaining input.  Models the scalar
cases of `json.loads`. -/
def parseScalar (s : List Char) : Option (JsonVal × List Char) :=
  match skipJsonWs s with
  | '"' :: rest => (splitAtQuote rest).map (fun p => (JsonVal.str p.1, p.2))
  | 't' :: 'r' :: 'u' :: 'e' :: rest => some (JsonVal.bool true, rest)
  | 'f' :: 'a' :: 'l' :: 's' :: 'e' :: rest => some (JsonVal.bool false, rest)
  | 'n' :: 'u' :: 'l' :: 'l' :: rest => some (JsonVal.null, rest)
  | '-' :: rest =>
    let ds := rest.takeWhile Char.isDigit
    if ds.isEmpty then none
    else some (JsonVal.num (-(digitsToNat ds : Int)), rest.drop ds.length)
  | rest =>
    let ds := rest.takeWhile Char.isDigit
    if ds.isEmpty then none
    else some (JsonVal.num (digitsToNat ds : Int), rest.drop ds.length)

/-- Parse the comma-separated scalar elements of a JSON array, up to and
including the closing bracket; the whole input must be consumed (as
`json.loads` requires).  `fuel` bounds the recursion. -/
def parseElemsAux : Nat → List Char → Option (List JsonVal)
  | 0, _ => none
  | fuel + 1, s =>
    match parseScalar s with
    | none => none
    | some (v, rest) =>
      match skipJsonWs rest with
      | ']' :: rest2 => if skipJsonWs rest2 = [] then some [v] else none
      | ',' :: rest2 => (parseElemsAux fuel rest2).map (fun vs => v :: vs)
      | _ => none

/-- Model of `json.loads` restricted to flat arrays of scalars: parse a JSON
array from the whole input, or fail.  (The adapter only ever attempts
`json.loads` on content starting with `[`, and a successful parse of such a
document is always a Python list, so the `isinstance(params, list)` check at
line 323 of `ollama_adapter.py` cannot fail on this path.) -/
def parseJsonArray (s : List Char) : Option (List JsonVal) :=
  match skipJsonWs s with
  | '[' :: rest =>
    match skipJsonWs rest with
    | ']' :: rest2 => if skipJsonWs rest2 = [] then some [] else none
    | _ => parseElemsAux (rest.length + 1) rest
  | _ => none

/-- The last offset at which `pat` occurs in `s`, modelling Python
`str.rfind` on a string known to contain `pat`. -/
def lastIndexOf (s pat : List Char) : Option Nat :=
  (((List.range (s.length + 1)).filter (fun i => pat.isPrefixOf (s.drop i))).getLast?)

def answerStartMarker : List Char := "YOUR RESPONSE".data
def userQueryMarker : List Char := "User query:".data

/-- `last_marker_pos` computed at `ollama_adapter.py` lines 259-270: the
last occurrence of `"YOUR RESPONSE"` if present, else the last occurrence of
`"User query:"` if present, else 0. -/
def last_marker_pos (text : List Char) : Nat :=
  if containsSub text answerStartMarker then (lastIndexOf text answerStartMarker).getD 0
  else if containsSub text userQueryMarker then (lastIndexOf text userQueryMarker).getD 0
  else 0

/-- Block filtering at `ollama_adapter.py` lines 272-284: if a marker was
found at a positive offset keep only blocks starting strictly after it;
otherwise keep the last three blocks (all of them when fewer than three);
if the filter left nothing, fall back to all blocks. -/
def selectResponseBlocks (text : List Char) (codeBlocks : List CodeBlock) :
    List CodeBlock :=
  let pos := last_marker_pos text
  let rb :=
    if 0 < pos then codeBlocks.filter (fun b => decide (pos < b.start))
    else if 3 ≤ codeBlocks.length then codeBlocks.drop (codeBlocks.length - 3)
    else codeBlocks
  if rb.isEmpty then codeBlocks else rb

/-- First pass of the parameter search (`ollama_adapter.py` lines 287-299):
the first block whose content starts with `[` and parses as JSON, with its
index; blocks that look like JSON but fail to parse are skipped. -/
def paramsSearch1 (idx : Nat) : List CodeBlock → Option (List JsonVal × Nat)
  | [] => none
  | b :: rest =>
    if b.content.head? = some '[' then
      match parseJsonArray b.content with
      | some v => some (v, idx)
      | none => paramsSearch1 (idx + 1) rest
    else paramsSearch1 (idx + 1) rest

/-- The lenient JSON repair of `ollama_adapter.py` lines 307-311: strip the
(re-stripped) block of trailing commas and whitespace, then drop one more
trailing comma if one is exposed. -/
def fixJsonBlock (c : List Char) : List Char :=
  let t := stripWs (rstripChar ',' (stripWs c))
  if t.getLast? = some ',' then t.dropLast else t

/-- Second, lenient pass of the parameter search (`ollama_adapter.py`
lines 304-318): re-strip each block, and for those starting with `[` try to
parse the repaired content. -/
def paramsSearch2 (idx : Nat) : List CodeBlock → Option (List JsonVal × Nat)
  | [] => none
  | b :: rest =>
    if (stripWs b.content).head? = some '[' then
      match parseJsonArray (fixJsonBlock b.content) with
      | some v => some (v, idx)
      | none => paramsSearch2 (idx + 1) rest
    else paramsSearch2 (idx + 1) rest

/-- `_is_full_sql` (`ollama_adapter.py` lines 443-446): the uppercased text
contains SELECT, FROM and WHERE as substrings. -/
def is_full_sql (t : List Char) : Bool :=
  let up := upperStr t
  containsSub up strSELECT && containsSub up strFROM && containsSub up strWHERE

def strPercentS : List Char := "%s".data
def strPropiedades : List Char := "propiedades".data
def strAND : List Char := "AND".data
def strOR : List Char := "OR".data

/-- `_is_only_where_clause` (`ollama_adapter.py` lines 448-454): no WHERE
keyword, but a placeholder, the table name, or a boolean connector is
present, and neither SELECT nor FROM occurs. -/
def is_only_where_clause (t : List Char) : Bool :=
  let up := upperStr t
  let hasWhereKeywords :=
    !containsSub up strWHERE &&
      (containsSub t strPercentS || containsSub t strPropiedades ||
        (containsSub up strAND || containsSub up strOR))
  hasWhereKeywords && !(containsSub up strSELECT || containsSub up strFROM)

/-- Case-insensitive prefix test, modelling a literal match under
`re.IGNORECASE` (the pattern constant is given uppercased). -/
def ciPrefix (kwUpper s : List Char) : Bool :=
  kwUpper.isPrefixOf (upperStr s)

/-- Length of the leading whitespace run (what `\s+`/`\s*` consume when they
match greedily at the front). -/
def wsRun (s : List Char) : Nat := (s.takeWhile Char.isWhitespace).length

def strGROUP : List Char := "GROUP".data
def strORDER : List Char := "ORDER".data
def strBY : List Char := "BY".data
def strLIMIT : List Char := "LIMIT".data

/-- Whether one of the terminator alternatives
`\s+GROUP\s+BY | \s+ORDER\s+BY | \s+LIMIT` of the WHERE-extraction regex
(`ollama_adapter.py` line 432) matches at the front of `s`: a nonempty
whitespace run, then the keyword(s), each `\s+` consuming a maximal run
because the following character is not whitespace. -/
def isTerminator (s : List Char) : Bool :=
  let n := wsRun s
  if n = 0 then false
  else
    let r := s.drop n
    (ciPrefix strGROUP r &&
      (let m := wsRun (r.drop 5)
       decide (0 < m) && ciPrefix strBY ((r.drop 5).drop m))) ||
    (ciPrefix strORDER r &&
      (let m := wsRun (r.drop 5)
       decide (0 < m) && ciPrefix strBY ((r.drop 5).drop m))) ||
    ciPrefix strLIMIT r

/-- Offset of the earliest terminator match in `s` (the point where the lazy
group `(.*?)` stops), or `s.length` when only `$` terminates the match. -/
def findTermEnd : List Char → Nat
  | [] => 0
  | c :: rest => if isTerminator (c :: rest) then 0 else findTermEnd rest + 1

/-- The suffix of `s` following the first occurrence of case-insensitive
`WHERE` that is followed by at least one whitespace character — the
leftmost position where `WHERE\s+` can match. -/
def findWhereSuffix : List Char → Option (List Char)
  | [] => none
  | c :: rest =>
    if ciPrefix strWHERE (c :: rest) && decide (0 < wsRun ((c :: rest).drop 5)) then
      some ((c :: rest).drop 5)
    else findWhereSuffix rest

/-- `_extract_where_from_full_sql` (`ollama_adapter.py` lines 413-441):
`re.search(r'WHERE\s+(.*?)(?:\s+GROUP\s+BY|\s+ORDER\s+BY|\s+LIMIT|$)', sql,
IGNORECASE | DOTALL)`, returning the stripped group 1, or `none` when the
pattern does not match (group 1 starts after the maximal whitespace run that
greedy `\s+` consumes, and ends at the earliest terminator; a `$`-terminated
match ending just before a final newline is indistinguishable after
`.strip()`). -/
def extract_where_from_full_sql (s : List Char) : Option (List Char) :=
  match findWhereSuffix s with
  | none => none
  | some afterKw =>
    let body := afterKw.drop (wsRun afterKw)
    some (stripWs (body.take (findTermEnd body)))

/-- The WHERE-clause search loop (`ollama_adapter.py` lines 327-356) over the
filtered blocks: skip the params block; a full-SQL block or a block merely
containing WHERE has its WHERE clause extracted (breaking only when the
extraction is truthy, i.e. neither `None` nor empty, but keeping the falsy
assignment); a WHERE-only block is taken verbatim and breaks. `acc` is the
current value of the `where_clause` variable. -/
def whereSearch (paramsIdx : Nat) : Nat → Option (List Char) → List CodeBlock →
    Option (List Char)
  | _, acc, [] => acc
  | idx, acc, b :: rest =>
    if idx = paramsIdx then whereSearch paramsIdx (idx + 1) acc rest
    else
      let c := b.content
      if is_full_sql c then
        match extract_where_from_full_sql c with
        | some w =>
          if w.isEmpty then whereSearch paramsIdx (idx + 1) (some w) rest
          else some w
        | none => whereSearch paramsIdx (idx + 1) none rest
      else if is_only_where_clause c then some c
      else if containsSub (upperStr c) strWHERE then
        match extract_where_from_full_sql c with
        | some w =>
          if w.isEmpty then whereSearch paramsIdx (idx + 1) (some w) rest
          else some w
        | none => whereSearch paramsIdx (idx + 1) none rest
      else whereSearch paramsIdx (idx + 1) acc rest

/-- The last-resort search (`ollama_adapter.py` lines 364-371): the first
non-params block whose lowercased content mentions the table name or that
contains a placeholder. -/
def lastResortSearch (paramsIdx : Nat) : Nat → List CodeBlock → Option (List Char)
  | _, [] => none
  | idx, b :: rest =>
    if idx = paramsIdx then lastResortSearch paramsIdx (idx + 1) rest
    else if containsSub (lowerStr b.content) strPropiedades ||
        containsSub b.content strPercentS then some b.content
    else lastResortSearch paramsIdx (idx + 1) rest

/-- Strip a leading `WHERE` keyword: `re.sub(r'^WHERE\s+', '', w, IGNORECASE)`
(`ollama_adapter.py` line 378).  The pattern requires at least one
whitespace character after WHERE and removes the maximal run. -/
def stripLeadingWhereKw (w : List Char) : List Char :=
  if ciPrefix strWHERE w && decide (0 < wsRun (w.drop 5)) then
    let t := w.drop 5
    t.drop (wsRun t)
  else w

def strSql : List Char := "sql".data
def strMysql : List Char := "mysql".data

/-- Strip a leading dialect token:
`re.sub(r'^(?:sql|mysql|SQL|MYSQL)?\s*', '', w, IGNORECASE)`
(`ollama_adapter.py` line 379): drop a case-insensitive `sql` or `mysql`
prefix if present, then any leading whitespace. -/
def stripDialectToken (w : List Char) : List Char :=
  let t :=
    if ciPrefix (upperStr strSql) w then w.drop 3
    else if ciPrefix (upperStr strMysql) w then w.drop 5
    else w
  t.drop (wsRun t)

def strFence : List Char := "```".data

/-- The WHERE-clause cleanup (`ollama_adapter.py` lines 377-384): strip,
remove a leading WHERE keyword, remove a leading dialect token, remove all
trailing semicolons and strip, and finally remove a trailing fence artifact
and strip. -/
def cleanupWhere (w : List Char) : List Char :=
  let w := stripWs w
  let w := stripLeadingWhereKw w
  let w := stripDialectToken w
  let w := stripWs (rstripChar ';' w)
  if strFence.isSuffixOf w then stripWs (w.take (w.length - 3)) else w

/-- The fixed SELECT/JOIN/GROUP BY skeleton around the WHERE fragment, as
assembled by the f-string at `ollama_adapter.py` lines 390-409. -/
def sqlSkeleton (whereClause : List Char) : List Char :=
  ("SELECT \n  propiedades.id,\n  propiedades.titulo,\n  propiedades.descripcion,\n  propiedades.tipo,\n  propiedades.precio,\n  propiedades.habitaciones,\n  propiedades.banos,\n  propiedades.area_m2,\n  propiedades.ubicacion,\n  propiedades.zona_administrativa,\n  propiedades.fecha_publicacion,\n  GROUP_CONCAT(DISTINCT a.tipo ORDER BY a.tipo) as amenidades_tipos,\n  GROUP_CONCAT(DISTINCT CONCAT(a.nombre, ' (', pa.distancia_km, 'km)') ORDER BY pa.distancia_km) as amenidades_cercanas\nFROM propiedades\nLEFT JOIN propiedades_amenidades pa ON propiedades.id = pa.propiedad_id\nLEFT JOIN amenidades a ON pa.amenidad_id = a.id\nWHERE ").data
    ++ whereClause
    ++ ("\nGROUP BY propiedades.id\nORDER BY propiedades.fecha_publicacion DESC").data

/-- The `ValueError`s `_parse_markdown_response` can raise
(`ollama_adapter.py` lines 255, 321, 324, 374). -/
inductive ParseError
  | missingCodeBlocks
  | missingParameters
  | paramsNotArray
  | noWhereClause
deriving DecidableEq, Repr

/-- Resolution of the WHERE clause and final assembly
(`ollama_adapter.py` lines 326-411), given the parameters block index. -/
def resolveWhereAndAssemble (responseBlocks : List CodeBlock)
    (params : List JsonVal) (paramsIdx : Nat) :
    Except ParseError (List Char × List JsonVal) :=
  let found :=
    match whereSearch paramsIdx 0 none responseBlocks with
    | some w => some w
    | none => lastResortSearch paramsIdx 0 responseBlocks
  match found with
  | none => Except.error ParseError.noWhereClause
  | some w => Except.ok (sqlSkeleton (cleanupWhere w), params)

/-- `_parse_markdown_response` (`ollama_adapter.py` lines 227-411) from the
fence scan onward: the code blocks produced by the regex
scan at lines 244-251 are taken as input together with the raw response text
(used for the marker search).  Raise if there are no blocks; filter blocks by
the marker; find the JSON parameters (strict pass, then lenient pass);
locate the WHERE clause; clean it up and assemble the final template. -/
def parse_markdown_response (text : List Char) (codeBlocks : List CodeBlock) :
    Except ParseError (List Char × List JsonVal) :=
  if codeBlocks.isEmpty then Except.error ParseError.missingCodeBlocks
  else
    let responseBlocks := selectResponseBlocks text codeBlocks
    match paramsSearch1 0 responseBlocks with
    | some (params, pidx) => resolveWhereAndAssemble responseBlocks params pidx
    | none =>
      match paramsSearch2 0 responseBlocks with
      | some (params, pidx) => resolveWhereAndAssemble responseBlocks params pidx
      | none => Except.error ParseError.missingParameters

/-- The failures of `generate_sql_with_params` (`ollama_adapter.py`
lines 42-107): empty query (`ValueError`, line 59), connection failure
(`RuntimeError`, line 101), or an unparseable response (the re-raised parse
`ValueError`, caught by the generic handler and re-wrapped as `RuntimeError`
at line 107). -/
inductive GenError
  | emptyQuery
  | connectionFailed
  | parseFailed (e : ParseError)
deriving DecidableEq, Repr

/-- `OllamaLLMAdapter.generate_sql_with_params` (`ollama_adapter.py`
lines 42-107).  The HTTP round trip to Ollama is the oracle `genCall`
(`Except.error` models `requests.RequestException`); the fence scan over the
returned text is the oracle `blocksOf`.  The empty-query guard runs before
anything else; the flag records whether the generator call was issued. -/
def generate_sql_with_params (genCall : Except Unit (List Char))
    (blocksOf : List Char → List CodeBlock) (query : List Char) :
    Except GenError (List Char × List JsonVal) × Bool :=
  if query = [] ∨ stripWs query = [] then (Except.error GenError.emptyQuery, false)
  else
    match genCall with
    | Except.error _ => (Except.error GenError.connectionFailed, true)
    | Except.ok t =>
      match parse_markdown_response t (blocksOf t) with
      | Except.error e => (Except.error (GenError.parseFailed e), true)
      | Except.ok sp => (Except.ok sp, true)

/-- The errors `SearchPropertyUseCase.execute` can raise
(`search_property.py` lines 53-68): its own empty-query `ValueError`, a
propagated generation failure, a propagated validation `ValueError`, the
`ValueError` of the falsy-verdict branch at lines 64-65, or a repository
failure. -/
inductive UseCaseError
  | emptyQuery
  | generationFailed (e : GenError)
  | validationFailed (e : CheckError)
  | templateInvalid
  | repoFailed
deriving DecidableEq, Repr

/-- The observable outcome of `SearchPropertyUseCase.execute`: the returned
response or raised error, whether the LLM service was invoked, and whether
`property_repository.search` was invoked. -/
structure ExecOutcome where
  result : Except UseCaseError (List Char × List (List JsonVal))
  llmCalled : Bool
  searchCalled : Bool
deriving DecidableEq, Repr

namespace SearchPropertyUseCase

/-- `SearchPropertyUseCase.execute` (`search_property.py` lines 39-71):
validate the query is nonempty, generate SQL and params via the LLM service,
validate the template (raising on validation failure), raise if the returned
verdict is falsy, then execute the repository search (oracle `search`) and
return the response. -/
def execute (genCall : Except Unit (List Char))
    (blocksOf : List Char → List CodeBlock) (fixer : Fixer)
    (search : List Char → List JsonVal → Except Unit (List (List JsonVal)))
    (query : List Char) : ExecOutcome :=
  if query = [] ∨ stripWs query = [] then
    ⟨Except.error UseCaseError.emptyQuery, false, false⟩
  else
    match generate_sql_with_params genCall blocksOf query with
    | (Except.error e, called) =>
      ⟨Except.error (UseCaseError.generationFailed e), called, false⟩
    | (Except.ok (sql, params), called) =>
      match validate_sql_template fixer sql params with
      | ⟨Except.error e, _, _⟩ =>
        ⟨Except.error (UseCaseError.validationFailed e), called, false⟩
      | ⟨Except.ok isValid, _, _⟩ =>
        if isValid then
          match search sql params with
          | Except.error _ => ⟨Except.error UseCaseError.repoFailed, called, true⟩
          | Except.ok rows => ⟨Except.ok (sql, rows), called, true⟩
        else ⟨Except.error UseCaseError.templateInvalid, called, false⟩

end SearchPropertyUseCase

/-! Definitions following the spec's words, for comparison with the code's
behaviour on refinement claims. -/

/-- Following the spec's words: a regex word character (`\b` boundary
semantics): letter, digit or underscore. -/
def specWordChar (c : Char) : Bool := c.isAlphanum || c = '_'

/-- Whether `kw` occurs at the front of `s` with a word boundary after it. -/
def specTokenAtFront (kw s : List Char) : Bool :=
  kw.isPrefixOf s &&
    (match s.drop kw.length with
     | [] => true
     | d :: _ => !specWordChar d)

/-- Scan `s` for a whole-token occurrence of `kw`; `prev` is the character
just before the current position. -/
def specTokenScan (kw : List Char) : Option Char → List Char → Bool
  | _, [] => false
  | prev, c :: rest =>
    ((match prev with
      | none => true
      | some p => !specWordChar p) && specTokenAtFront kw (c :: rest)) ||
    specTokenScan kw (some c) rest

/-- Following the spec's words: `kw` appears in `s` as a whole token — a
word-boundary occurrence, regardless of adjacent punctuation or newlines. -/
def specContainsWordToken (s kw : List Char) : Bool := specTokenScan kw none s

/-- Following the spec's words: the number of positional `%s` placeholders
in a template. -/
def specPlaceholderCount : List Char → Nat
  | '%' :: 's' :: rest => specPlaceholderCount rest + 1
  | _ :: rest => specPlaceholderCount rest
  | [] => 0

/-! Concrete inputs used by counterexamples and witnesses. -/

/-- A fixer oracle whose every call fails (the repair request raises). -/
def fixNone : Fixer := fun _ _ _ _ => none

/-- A template with two placeholders, paired below with a single parameter. -/
def tmplMismatch : List Char :=
  "SELECT * FROM propiedades WHERE precio < %s AND habitaciones > %s".data

/-- A template containing DROP as a whole token, but adjacent to a semicolon
rather than delimited by spaces on both sides. -/
def tmplPunctDrop : List Char :=
  "SELECT * FROM propiedades WHERE precio < 1;DROP TABLE propiedades".data

/-- The spec's scenario 2 input: a SELECT template with
`"; DROP TABLE propiedades;"` appended. -/
def tmplSemiDrop : List Char :=
  "SELECT * FROM propiedades WHERE precio < %s; DROP TABLE propiedades;".data

/-- A SELECT template whose only anomaly is a trailing semicolon. -/
def tmplSemiOnly : List Char :=
  "SELECT * FROM propiedades WHERE precio < %s;".data

/-- A template with a space-delimited DROP keyword. -/
def tmplSpacedDrop : List Char :=
  "SELECT DROP FROM propiedades".data

/-- A template that never validates (not a SELECT). -/
def tmplNotSelect : List Char := "DROP TABLE x".data

/-- The spec's scenario 1 full-statement block. -/
def blkFullStmt : CodeBlock :=
  ⟨"SELECT * FROM propiedades WHERE precio < %s".data, 0, 50⟩

/-- The spec's scenario 1 params block. -/
def blkParams : CodeBlock := ⟨"[500000]".data, 60, 70⟩

/-- A WHERE-only block whose fragment smuggles a DROP keyword. -/
def blkDropFragment : CodeBlock := ⟨"x = 1 OR DROP IN (1)".data, 0, 30⟩

/-- An empty params block. -/
def blkEmptyParams : CodeBlock := ⟨"[]".data, 40, 46⟩

/-! Helper lemmas. -/

/-- Invariant of the validation/repair loop: entered with `attempt + fuel =
maxRetries` and positive fuel, it never returns `False`, issues at most
`fuel - 1` fixer calls, and raising implies exactly `fuel - 1` fixer calls
and `fuel` validation attempts. -/
lemma validateGo_trace (fixer : Fixer) :
    ∀ (fuel attempt : Nat) (sql : List Char) (params : List JsonVal),
    attempt + fuel = maxRetries → 0 < fuel →
    (validateGo fixer sql params attempt fuel).result ≠ Except.ok false ∧
    (validateGo fixer sql params attempt fuel).fixCalls ≤ fuel - 1 ∧
    (∀ e, (validateGo fixer sql params attempt fuel).result = Except.error e →
      (validateGo fixer sql params attempt fuel).fixCalls = fuel - 1 ∧
      (validateGo fixer sql params attempt fuel).checkCalls = fuel) := by
  intro fuel
  induction fuel with
  | zero => intro attempt sql params _ h0; exact absurd h0 (by simp)
  | succ f ih =>
    intro attempt sql params hsum _
    rcases hchk : checkSqlOnce sql with _ | e
    · simp [validateGo, hchk]
    · by_cases hlast : attempt = maxRetries - 1
      · have hf0 : f = 0 := by
          simp only [maxRetries] at hsum hlast; omega
        simp [validateGo, hchk, if_pos hlast, hf0]
      · have hf : 0 < f := by
          simp only [maxRetries] at hsum hlast ⊢; omega
        have hsum' : (attempt + 1) + f = maxRetries := by omega
        rcases hfix : fixer attempt sql params e with _ | ⟨sql2, params2⟩
        · obtain ⟨r1, r2, r3⟩ := ih (attempt + 1) sql params hsum' hf
          simp only [validateGo, hchk, if_neg hlast, hfix]
          refine ⟨r1, by omega, ?_⟩
          intro e' he'
          obtain ⟨c1, c2⟩ := r3 e' he'
          omega
        · obtain ⟨r1, r2, r3⟩ := ih (attempt + 1) sql2 params2 hsum' hf
          simp only [validateGo, hchk, if_neg hlast, hfix]
          refine ⟨r1, by omega, ?_⟩
          intro e' he'
          obtain ⟨c1, c2⟩ := r3 e' he'
          omega

/-- The value returned by `validate_sql_template` on a normal (non-raising)
exit is always `True`: the `return False` at line 178 is dead code. -/
lemma validate_result_ne_false (fixer : Fixer) (sql : List Char)
    (params : List JsonVal) :
    (validate_sql_template fixer sql params).result ≠ Except.ok false :=
  (validateGo_trace fixer maxRetries 0 sql params (Nat.zero_add _) (by decide)).1

/-- If `generate_sql_with_params` returns a pair, the query guard passed and
the generator was called. -/
lemma generate_ok_shape (genCall : Except Unit (List Char))
    (blocksOf : List Char → List CodeBlock) (query : List Char)
    (sql : List Char) (params : List JsonVal)
    (h : (generate_sql_with_params genCall blocksOf query).1 =
      Except.ok (sql, params)) :
    ¬(query = [] ∨ stripWs query = []) ∧
    generate_sql_with_params genCall blocksOf query =
      (Except.ok (sql, params), true) := by
  by_cases hq : query = [] ∨ stripWs query = []
  · rw [generate_sql_with_params.eq_def, if_pos hq] at h
    exact absurd h (by simp)
  · refine ⟨hq, ?_⟩
    rcases genCall with u | t
    · rw [generate_sql_with_params.eq_def, if_neg hq] at h
      exact absurd h (by simp)
    · rw [generate_sql_with_params.eq_def, if_neg hq] at h ⊢
      rcases hp : parse_markdown_response t (blocksOf t) with e | sp
      · exact absurd h (by simp [hp])
      · have h2 : sp = (sql, params) := by simpa [hp] using h
        simp [hp, h2]

/-! Claim theorems. -/

/-- C1 (amended): `validate_sql_template` performs no placeholder/parameter
arity check.  Whenever the template's own checks pass, the pair is accepted
with the very first attempt, whatever the params list is — in particular
pairs whose placeholder count differs from the parameter count are
accepted. -/
theorem C1_no_arity_check (fixer : Fixer) (sql : List Char)
    (params : List JsonVal) (h : checkSqlOnce sql = none) :
    validate_sql_template fixer sql params = ⟨Except.ok true, 0, 1⟩ := by
  rw [validate_sql_template, show maxRetries = 2 + 1 from rfl]
  simp [validateGo, h]

/-- C1 witness: a template with two placeholders and a single parameter
passes its checks and is accepted. -/
theorem C1_no_arity_check_witness :
    checkSqlOnce tmplMismatch = none ∧
    validate_sql_template fixNone tmplMismatch [JsonVal.num 500000] =
      ⟨Except.ok true, 0, 1⟩ :=
  ⟨by decide, C1_no_arity_check fixNone tmplMismatch [JsonVal.num 500000] (by decide)⟩

/-- C1 counterexample: a (template, params) pair whose placeholder count (2)
differs from its parameter count (1) is accepted by `validate_sql_template`
with a safe verdict, not rejected with a placeholder/parameter mismatch. -/
theorem C1_counterexample :
    specPlaceholderCount tmplMismatch = 2 ∧
    List.length [JsonVal.num 500000] = 1 ∧
    (validate_sql_template fixNone tmplMismatch [JsonVal.num 500000]).result =
      Except.ok true := by
  refine ⟨by decide, by decide, by decide⟩

/-- C2 (amended): the dangerous-keyword rule is a space-delimited substring
test, not a word-boundary test: whenever the stripped uppercased template
starts with SELECT and some dangerous keyword occurs with a space on each
side in the space-padded uppercased template, a single validation attempt
fails with a dangerous-keyword error (naming the first matching keyword in
the code's list order). -/
theorem C2_space_delimited_keywords (sql : List Char)
    (hsel : strSELECT.isPrefixOf (upperStr (stripWs sql)) = true)
    (hkw : ∃ kw ∈ dangerousKeywords,
      keywordHit (upperStr (stripWs sql)) kw = true) :
    ∃ kw, checkSqlOnce sql = some (CheckError.dangerousKeyword kw) := by
  have hfind : (firstDangerous (upperStr (stripWs sql))).isSome := by
    rw [firstDangerous, List.find?_isSome]
    rcases hkw with ⟨kw, hmem, hhit⟩
    exact ⟨kw, hmem, hhit⟩
  rcases hopt : firstDangerous (upperStr (stripWs sql)) with _ | kw
  · rw [hopt] at hfind
    exact absurd hfind (by simp)
  · refine ⟨kw, ?_⟩
    simp only [checkSqlOnce]
    rw [hsel, hopt]
    simp

/-- C2 witness: a template with a space-delimited DROP is rejected with a
dangerous-keyword error. -/
theorem C2_space_delimited_keywords_witness :
    ∃ kw, checkSqlOnce tmplSpacedDrop = some (CheckError.dangerousKeyword kw) :=
  C2_space_delimited_keywords tmplSpacedDrop (by decide)
    ⟨"DROP".data, by decide, by decide⟩

/-- C2 counterexample: a template containing DROP as a whole token (word
boundary on both sides, adjacent to a semicolon) passes every check and is
accepted as safe, because the code's test requires spaces around the
keyword. -/
theorem C2_counterexample :
    specContainsWordToken (upperStr (stripWs tmplPunctDrop)) ("DROP".data) = true ∧
    checkSqlOnce tmplPunctDrop = none ∧
    (validate_sql_template fixNone tmplPunctDrop []).result = Except.ok true := by
  refine ⟨by decide, by decide, by decide⟩

/-- C3 (amended): there is no statement-separator rule.  The spec's
scenario input — a SELECT template with `"; DROP TABLE propiedades;"`
appended — is rejected by the dangerous-keyword rule, naming DROP, while a
template whose only anomaly is a trailing semicolon passes every check. -/
theorem C3_no_semicolon_rule :
    checkSqlOnce tmplSemiDrop = some (CheckError.dangerousKeyword ("DROP".data)) ∧
    checkSqlOnce tmplSemiOnly = none := by
  refine ⟨by decide, by decide⟩

/-- C3 counterexample: on the spec's scenario input the raised validation
error is the dangerous-keyword error naming DROP (the `ValueError`
"Dangerous SQL keyword detected: DROP"); no multiple-statements reason
exists anywhere in the code's validation. -/
theorem C3_counterexample :
    (validate_sql_template fixNone tmplSemiDrop []).result =
      Except.error (CheckError.dangerousKeyword ("DROP".data)) := by
  decide

/-- C4 (amended): the repair loop issues at most `maxRetries - 1 = 2`
correction calls, and raising the validation failure to the caller
(exhaustion) implies exactly `maxRetries - 1 = 2` correction calls and
exactly `maxRetries = 3` validation attempts were made — the final failed
attempt raises instead of requesting a correction. -/
theorem C4_bounded_repair_calls (fixer : Fixer) (sql : List Char)
    (params : List JsonVal) :
    (validate_sql_template fixer sql params).fixCalls ≤ maxRetries - 1 ∧
    ∀ e, (validate_sql_template fixer sql params).result = Except.error e →
      (validate_sql_template fixer sql params).fixCalls = maxRetries - 1 ∧
      (validate_sql_template fixer sql params).checkCalls = maxRetries := by
  obtain ⟨_, h2, h3⟩ :=
    validateGo_trace fixer maxRetries 0 sql params (Nat.zero_add _) (by decide)
  exact ⟨h2, h3⟩

/-- C4 witness: a run that exhausts the budget (a non-SELECT template whose
every repair request fails) makes exactly 2 correction calls and 3
validation attempts. -/
theorem C4_bounded_repair_calls_witness :
    (validate_sql_template fixNone tmplNotSelect []).result =
      Except.error CheckError.notASelect ∧
    (validate_sql_template fixNone tmplNotSelect []).fixCalls = maxRetries - 1 ∧
    (validate_sql_template fixNone tmplNotSelect []).checkCalls = maxRetries :=
  ⟨by decide,
    (C4_bounded_repair_calls fixNone tmplNotSelect []).2 CheckError.notASelect
      (by decide)⟩

/-- C4 counterexample: a run reaching the exhausted terminal state during
which only 2 repair attempts — not `maxRetries = 3` — were made. -/
theorem C4_counterexample :
    (validate_sql_template fixNone tmplNotSelect []).result =
      Except.error CheckError.notASelect ∧
    ¬(validate_sql_template fixNone tmplNotSelect []).fixCalls = 3 := by
  refine ⟨by decide, by decide⟩

/-- C5 (confirmed): when the raw text has blocks both before and after the
last marker occurrence, the extractor keeps exactly the blocks whose start
offset lies strictly after that occurrence; every block at or before it is
discarded. -/
theorem C5_marker_precedence (text : List Char) (blocks : List CodeBlock)
    (hbefore : ∃ b ∈ blocks, b.start < last_marker_pos text)
    (hafter : ∃ b ∈ blocks, last_marker_pos text < b.start) :
    selectResponseBlocks text blocks =
      blocks.filter (fun b => decide (last_marker_pos text < b.start)) ∧
    (∀ b ∈ selectResponseBlocks text blocks, last_marker_pos text < b.start) ∧
    (∀ b ∈ blocks, b.start ≤ last_marker_pos text →
      b ∉ selectResponseBlocks text blocks) := by
  rcases hbefore with ⟨b0, _, hb0⟩
  have hpos : 0 < last_marker_pos text := Nat.lt_of_le_of_lt (Nat.zero_le _) hb0
  rcases hafter with ⟨b1, hb1mem, hb1⟩
  have hmemf : b1 ∈ blocks.filter (fun b => decide (last_marker_pos text < b.start)) :=
    List.mem_filter.mpr ⟨hb1mem, by simpa using hb1⟩
  have hsel : selectResponseBlocks text blocks =
      blocks.filter (fun b => decide (last_marker_pos text < b.start)) := by
    simp only [selectResponseBlocks]
    rw [if_pos hpos]
    rcases hl : blocks.filter (fun b => decide (last_marker_pos text < b.start)) with
      _ | ⟨x, xs⟩
    · rw [hl] at hmemf
      exact absurd hmemf (by simp)
    · rw [hl]
      simp
  refine ⟨hsel, ?_, ?_⟩
  · intro b hb
    rw [hsel] at hb
    simpa using (List.mem_filter.mp hb).2
  · intro b hb hle
    rw [hsel]
    intro hmem
    have := (List.mem_filter.mp hmem).2
    simp at this
    omega

/-- C5 witness: with a marker at offset 1, a block starting at 0 and a block
starting at 5, only the latter is kept. -/
theorem C5_marker_precedence_witness :
    selectResponseBlocks ("eUser query: q".data)
        [⟨"a".data, 0, 1⟩, ⟨"b".data, 5, 6⟩] =
      List.filter
        (fun b => decide (last_marker_pos ("eUser query: q".data) < b.start))
        [⟨"a".data, 0, 1⟩, ⟨"b".data, 5, 6⟩] :=
  (C5_marker_precedence ("eUser query: q".data)
      [⟨"a".data, 0, 1⟩, ⟨"b".data, 5, 6⟩]
      ⟨⟨"a".data, 0, 1⟩, by decide, by decide⟩
      ⟨⟨"b".data, 5, 6⟩, by decide, by decide⟩).1

/-- C10 (confirmed): when a marker occurs at a positive offset but no block
starts after it, the extractor falls back to all blocks rather than failing;
when the marker's last occurrence is at offset 0 it is treated as absent and
the last three blocks are used. -/
theorem C10_marker_fallbacks (text : List Char) (blocks : List CodeBlock) :
    (0 < last_marker_pos text →
      (∀ b ∈ blocks, b.start ≤ last_marker_pos text) →
      selectResponseBlocks text blocks = blocks) ∧
    ((containsSub text answerStartMarker = true ∨
        containsSub text userQueryMarker = true) →
      last_marker_pos text = 0 →
      selectResponseBlocks text blocks = blocks.drop (blocks.length - 3)) := by
  constructor
  · intro hpos hall
    have hfil : blocks.filter (fun b => decide (last_marker_pos text < b.start)) = [] := by
      rw [List.filter_eq_nil_iff]
      intro b hb
      simpa using Nat.not_lt.mpr (hall b hb)
    simp only [selectResponseBlocks]
    rw [if_pos hpos, hfil]
    simp
  · intro _ hzero
    simp only [selectResponseBlocks]
    rw [hzero]
    simp only [Nat.lt_irrefl, if_false]
    by_cases h3 : 3 ≤ blocks.length
    · rw [if_pos h3]
      have hne : blocks.drop (blocks.length - 3) ≠ [] := by
        rw [Ne, List.drop_eq_nil_iff]
        omega
      rcases hd : blocks.drop (blocks.length - 3) with _ | ⟨x, xs⟩
      · exact absurd hd hne
      · simp
    · rw [if_neg h3]
      have hlen : blocks.length - 3 = 0 :=
        Nat.sub_eq_zero_of_le (Nat.le_of_lt (Nat.lt_of_not_le h3))
      rw [hlen, List.drop_zero]
      rcases blocks with _ | ⟨x, xs⟩
      · simp
      · simp

/-- C10 witness: a marker at offset 1 with both blocks at or before it keeps
all blocks; a marker whose last occurrence is offset 0 with four blocks
keeps the last three. -/
theorem C10_marker_fallbacks_witness :
    selectResponseBlocks ("xUser query: q".data)
        [⟨"a".data, 0, 3⟩, ⟨"b".data, 1, 4⟩] =
      [⟨"a".data, 0, 3⟩, ⟨"b".data, 1, 4⟩] ∧
    selectResponseBlocks ("YOUR RESPONSE".data)
        [⟨"a".data, 0, 1⟩, ⟨"b".data, 1, 2⟩, ⟨"c".data, 2, 3⟩, ⟨"d".data, 3, 4⟩] =
      [⟨"b".data, 1, 2⟩, ⟨"c".data, 2, 3⟩, ⟨"d".data, 3, 4⟩] :=
  ⟨(C10_marker_fallbacks ("xUser query: q".data)
      [⟨"a".data, 0, 3⟩, ⟨"b".data, 1, 4⟩]).1 (by decide) (by decide),
   (C10_marker_fallbacks ("YOUR RESPONSE".data)
      [⟨"a".data, 0, 1⟩, ⟨"b".data, 1, 2⟩, ⟨"c".data, 2, 3⟩, ⟨"d".data, 3, 4⟩]).2
      (Or.inl (by decide)) (by decide)⟩

/-- A generator response with no marker tokens. -/
def respTextC6 : List Char := "answer".data

/-- A fence-scan oracle returning a WHERE fragment that smuggles DROP, plus
an empty params block. -/
def blocksOfC6 : List Char → List CodeBlock := fun _ => [blkDropFragment, blkEmptyParams]

/-- The template assembled from the DROP-smuggling fragment. -/
def tmplDropAssembled : List Char := sqlSkeleton ("x = 1 OR DROP IN (1)".data)

/-- A repository oracle that always succeeds with no rows. -/
def searchOk : List Char → List JsonVal → Except Unit (List (List JsonVal)) :=
  fun _ _ => Except.ok []

/-- C6 (confirmed): when the generated pair never reaches a safe verdict
within the retry budget, `execute` raises the validation error and
`property_repository.search` is never invoked. -/
theorem C6_exhaustion_never_queries (genCall : Except Unit (List Char))
    (blocksOf : List Char → List CodeBlock) (fixer : Fixer)
    (search : List Char → List JsonVal → Except Unit (List (List JsonVal)))
    (query sql : List Char) (params : List JsonVal) (e : CheckError)
    (hgen : (generate_sql_with_params genCall blocksOf query).1 =
      Except.ok (sql, params))
    (hval : (validate_sql_template fixer sql params).result = Except.error e) :
    SearchPropertyUseCase.execute genCall blocksOf fixer search query =
      ⟨Except.error (UseCaseError.validationFailed e), true, false⟩ := by
  obtain ⟨hq, hgen2⟩ := generate_ok_shape genCall blocksOf query sql params hgen
  rcases hv : validate_sql_template fixer sql params with ⟨res, fc, cc⟩
  rw [hv] at hval
  simp at hval
  subst hval
  rw [SearchPropertyUseCase.execute.eq_def, if_neg hq, hgen2]
  simp [hv]

/-- C6 witness: a generated template whose WHERE fragment smuggles DROP,
with a fixer that always fails, exhausts validation; `execute` raises the
dangerous-keyword validation error without touching the repository. -/
theorem C6_exhaustion_never_queries_witness :
    SearchPropertyUseCase.execute (Except.ok respTextC6) blocksOfC6 fixNone
        searchOk ("casa".data) =
      ⟨Except.error (UseCaseError.validationFailed
          (CheckError.dangerousKeyword ("DROP".data))), true, false⟩ :=
  C6_exhaustion_never_queries (Except.ok respTextC6) blocksOfC6 fixNone
    searchOk ("casa".data) tmplDropAssembled []
    (CheckError.dangerousKeyword ("DROP".data)) (by decide) (by decide)

/-- C7 (confirmed): the spec's scenario 1 — a full-statement block
`SELECT * FROM propiedades WHERE precio < %s` and a params block
`[500000]` — parses to the fixed skeleton around the WHERE fragment
`precio < %s` with params `[500000]`, and that template validates safe. -/
theorem C7_full_statement_scenario :
    parse_markdown_response [] [blkFullStmt, blkParams] =
      Except.ok (sqlSkeleton ("precio < %s".data), [JsonVal.num 500000]) ∧
    (validate_sql_template fixNone (sqlSkeleton ("precio < %s".data))
        [JsonVal.num 500000]).result = Except.ok true := by
  refine ⟨by decide, by decide⟩

/-- C8 (confirmed): `validate_sql_template` never returns `False` — every
normal return is `True` and every failure raises — so the falsy-verdict
branch of `SearchPropertyUseCase.execute` is unreachable. -/
theorem C8_false_branch_unreachable (fixer : Fixer) (sql : List Char)
    (params : List JsonVal) (genCall : Except Unit (List Char))
    (blocksOf : List Char → List CodeBlock)
    (search : List Char → List JsonVal → Except Unit (List (List JsonVal)))
    (query : List Char) :
    (validate_sql_template fixer sql params).result ≠ Except.ok false ∧
    (SearchPropertyUseCase.execute genCall blocksOf fixer search query).result ≠
      Except.error UseCaseError.templateInvalid := by
  refine ⟨validate_result_ne_false fixer sql params, ?_⟩
  by_cases hq : query = [] ∨ stripWs query = []
  · rw [SearchPropertyUseCase.execute.eq_def, if_pos hq]
    simp
  · rcases hg : generate_sql_with_params genCall blocksOf query with ⟨res, called⟩
    rcases res with e | ⟨sql2, params2⟩
    · rw [SearchPropertyUseCase.execute.eq_def, if_neg hq, hg]
      simp
    · rcases hv : validate_sql_template fixer sql2 params2 with ⟨vres, fc, cc⟩
      rcases vres with e | b
      · rw [SearchPropertyUseCase.execute.eq_def, if_neg hq, hg]
        simp [hv]
      · cases b
        · have hne := validate_result_ne_false fixer sql2 params2
          rw [hv] at hne
          exact absurd rfl hne
        · rcases hs : search sql2 params2 with u | rows
          · rw [SearchPropertyUseCase.execute.eq_def, if_neg hq, hg]
            simp [hv, hs]
          · rw [SearchPropertyUseCase.execute.eq_def, if_neg hq, hg]
            simp [hv, hs]

/-- C9 (confirmed): on a query that is empty or all whitespace,
`generate_sql_with_params` raises the empty-query error before issuing any
generator call, and `SearchPropertyUseCase.execute` raises the same error
before invoking the LLM service at all. -/
theorem C9_empty_query_guard (genCall : Except Unit (List Char))
    (blocksOf : List Char → List CodeBlock) (fixer : Fixer)
    (search : List Char → List JsonVal → Except Unit (List (List JsonVal)))
    (query : List Char) (h : stripWs query = []) :
    generate_sql_with_params genCall blocksOf query =
      (Except.error GenError.emptyQuery, false) ∧
    SearchPropertyUseCase.execute genCall blocksOf fixer search query =
      ⟨Except.error UseCaseError.emptyQuery, false, false⟩ := by
  constructor
  · rw [generate_sql_with_params.eq_def, if_pos (Or.inr h)]
  · rw [SearchPropertyUseCase.execute.eq_def, if_pos (Or.inr h)]

/-- C9 witness: a whitespace-only query is rejected up front by both the
adapter and the use case, with no generator and no repository activity. -/
theorem C9_empty_query_guard_witness :
    generate_sql_with_params (Except.ok []) (fun _ => []) ("   ".data) =
      (Except.error GenError.emptyQuery, false) ∧
    SearchPropertyUseCase.execute (Except.ok []) (fun _ => []) fixNone searchOk
        ("   ".data) =
      ⟨Except.error UseCaseError.emptyQuery, false, false⟩ :=
  C9_empty_query_guard (Except.ok []) (fun _ => []) fixNone searchOk
    ("   ".data) (by decide)

end AiPropertySearch
